import Mathlib

/-!
Shallow embedding of the kafka-python group-membership coordinator
(`kafka/coordinator/base.py`) and its broker error taxonomy
(`kafka/common.py`), together with proofs of the specified properties.

Bytes on the wire are modelled as `List Nat`; broker node ids as `Int`;
the transport (`KafkaClient`) is modelled by the two predicates the
coordinator consults (`is_disconnected`, `ready`).
-/

namespace KafkaCoord

instance {ε α : Type} [DecidableEq ε] [DecidableEq α] :
    DecidableEq (Except ε α) := fun a b =>
  match a, b with
  | .ok x, .ok y =>
      if h : x = y then .isTrue (by rw [h]) else .isFalse (by simp [h])
  | .error x, .error y =>
      if h : x = y then .isTrue (by rw [h]) else .isFalse (by simp [h])
  | .ok _, .error _ => .isFalse (by simp)
  | .error _, .ok _ => .isFalse (by simp)

abbrev Bytes := List Nat

/-- The broker error classes of `kafka/common.py` that can be returned by
`for_code`, plus the non-broker kinds the coordinator code references
(`IllegalStateError`, `ConnectionError`). Mirrors the class hierarchy
rooted at `BrokerResponseError`. -/
inductive ErrorKind where
  | NoError
  | UnknownError
  | OffsetOutOfRange
  | InvalidMessage
  | UnknownTopicOrPartition
  | InvalidFetchRequest
  | LeaderNotAvailable
  | NotLeaderForPartition
  | RequestTimedOut
  | BrokerNotAvailable
  | ReplicaNotAvailable
  | MessageSizeTooLarge
  | StaleControllerEpoch
  | OffsetMetadataTooLarge
  | StaleLeaderEpochCode
  | GroupLoadInProgress
  | GroupCoordinatorNotAvailable
  | NotCoordinatorForGroup
  | InvalidTopic
  | RecordListTooLarge
  | NotEnoughReplicas
  | NotEnoughReplicasAfterAppend
  | InvalidRequiredAcks
  | IllegalGeneration
  | InconsistentGroupProtocol
  | InvalidGroupId
  | UnknownMemberId
  | InvalidSessionTimeout
  | RebalanceInProgress
  | InvalidCommitOffsetSize
  | TopicAuthorizationFailed
  | GroupAuthorizationFailed
  | ClusterAuthorizationFailed
  | IllegalState
  | ConnectionFailed
  deriving DecidableEq, Repr

/-- The `kafka_errors` registry of `kafka/common.py`: the `errno → class`
table built over all `BrokerResponseError` subclasses. -/
def kafka_errors : List (Int × ErrorKind) :=
  [ (0, .NoError), (-1, .UnknownError), (1, .OffsetOutOfRange),
    (2, .InvalidMessage), (3, .UnknownTopicOrPartition),
    (4, .InvalidFetchRequest), (5, .LeaderNotAvailable),
    (6, .NotLeaderForPartition), (7, .RequestTimedOut),
    (8, .BrokerNotAvailable), (9, .ReplicaNotAvailable),
    (10, .MessageSizeTooLarge), (11, .StaleControllerEpoch),
    (12, .OffsetMetadataTooLarge), (13, .StaleLeaderEpochCode),
    (14, .GroupLoadInProgress), (15, .GroupCoordinatorNotAvailable),
    (16, .NotCoordinatorForGroup), (17, .InvalidTopic),
    (18, .RecordListTooLarge), (19, .NotEnoughReplicas),
    (20, .NotEnoughReplicasAfterAppend), (21, .InvalidRequiredAcks),
    (22, .IllegalGeneration), (23, .InconsistentGroupProtocol),
    (24, .InvalidGroupId), (25, .UnknownMemberId),
    (26, .InvalidSessionTimeout), (27, .RebalanceInProgress),
    (28, .InvalidCommitOffsetSize), (29, .TopicAuthorizationFailed),
    (30, .GroupAuthorizationFailed), (31, .ClusterAuthorizationFailed) ]

/-- `kafka.common.for_code`: `kafka_errors.get(error_code, UnknownError)`. -/
def for_code (error_code : Int) : ErrorKind :=
  (kafka_errors.lookup error_code).getD .UnknownError

/-- The `retriable` class attribute of each error class in
`kafka/common.py` (`KafkaError.retriable = False` overridden to `True`
where the subclass says so). -/
def ErrorKind.retriableAttr : ErrorKind → Bool
  | .LeaderNotAvailable => true
  | .NotLeaderForPartition => true
  | .RequestTimedOut => true
  | .GroupLoadInProgress => true
  | .GroupCoordinatorNotAvailable => true
  | .NotCoordinatorForGroup => true
  | .ConnectionFailed => true
  | _ => false

/-- The constructor argument the coordinator passes when building an error
instance (the handlers variously pass nothing, a string, the whole
response, or a node id). -/
inductive ErrArg where
  | noArg
  | str (s : String)
  | node (n : Option Int)
  | resp
  deriving DecidableEq, Repr

/-- A value delivered to `future.failure`. The Python code usually passes a
constructed instance `error_type(...)`, but in one place passes the bare
class object `error_type`; the two are distinguished here. -/
inductive Err where
  | inst (k : ErrorKind) (a : ErrArg)
  | cls (k : ErrorKind)
  deriving DecidableEq, Repr

def Err.kind : Err → ErrorKind
  | .inst k _ => k
  | .cls k => k

/-- `future.retriable()`: reads the `retriable` attribute of the stored
exception; in Python a class object exposes the same class attribute as
its instances. -/
def Err.retriable (e : Err) : Bool := e.kind.retriableAttr

/-- `isinstance(exception, (UnknownMemberIdError, RebalanceInProgressError,
IllegalGenerationError))` as tested in `ensure_active_group`. A bare class
object is not an instance of anything, hence `cls` yields `false`. -/
def Err.isMembershipInstance : Err → Bool
  | .inst k _ =>
      k = .UnknownMemberId ∨ k = .RebalanceInProgress ∨ k = .IllegalGeneration
  | .cls _ => false

/-- The slice of the `KafkaClient` transport the coordinator consults. -/
structure ClientView where
  is_disconnected : Int → Bool
  ready : Int → Bool

/-- `BaseCoordinator` mutable state (plus the immutable configuration the
methods read: `group_id` and the `config` entries). `protocol` is only
assigned on a successful join, hence `Option`. -/
structure CoordState where
  group_id : String
  session_timeout_ms : Int
  heartbeat_interval_ms : Int
  retry_backoff_ms : Int
  generation : Int
  member_id : String
  coordinator_id : Option Int
  rejoin_needed : Bool
  needs_join_prepare : Bool
  protocol : Option String
  deriving DecidableEq, Repr

/-- `JoinGroupRequest.UNKNOWN_MEMBER_ID` (the empty string). -/
def UNKNOWN_MEMBER_ID : String := ""

/-- `OffsetCommitRequest.DEFAULT_GENERATION_ID`; per the spec the initial
sentinel `DEFAULT_GENERATION = -1`. -/
def DEFAULT_GENERATION_ID : Int := -1

/-- `BaseCoordinator.coordinator_dead`: clear `coordinator_id` if set. -/
def coordinator_dead (s : CoordState) : CoordState :=
  { s with coordinator_id := none }

/-- `BaseCoordinator.coordinator_unknown`: returns whether the coordinator
is unknown; side-effect: `coordinator_dead()` when the transport reports
the node disconnected. Returns (result, updated state). -/
def coordinator_unknown (cl : ClientView) (s : CoordState) :
    Bool × CoordState :=
  match s.coordinator_id with
  | none => (true, s)
  | some node =>
      if cl.is_disconnected node then (true, coordinator_dead s)
      else (!cl.ready node, s)

structure JoinGroupResponse where
  error_code : Int
  generation_id : Int
  member_id : String
  leader_id : String
  group_protocol : String
  members : List (String × Bytes)
  deriving DecidableEq, Repr

structure SyncGroupResponse where
  error_code : Int
  member_assignment : Bytes
  deriving DecidableEq, Repr

structure HeartbeatResponse where
  error_code : Int
  deriving DecidableEq, Repr

structure GroupCoordinatorResponse where
  error_code : Int
  coordinator_id : Int
  deriving DecidableEq, Repr

/-- The continuation chosen by `_handle_join_group_response`: on `NoError`
the handler chains the SyncGroup exchange into the future, otherwise it
fails the future. -/
inductive JoinAction where
  | toSync
  | failed (e : Err)
  deriving DecidableEq, Repr

/-- `BaseCoordinator._handle_join_group_response`. Mirrors the
`if/elif` chain on `Errors.for_code(response.error_code)`. -/
def handle_join_group_response (s : CoordState) (r : JoinGroupResponse) :
    CoordState × JoinAction :=
  match for_code r.error_code with
  | .NoError =>
      ({ s with member_id := r.member_id,
                generation := r.generation_id,
                rejoin_needed := false,
                protocol := some r.group_protocol }, .toSync)
  | .GroupLoadInProgress =>
      (s, .failed (.inst .GroupLoadInProgress .resp))
  | .UnknownMemberId =>
      ({ s with member_id := UNKNOWN_MEMBER_ID },
       .failed (.inst .UnknownMemberId (.str s.member_id)))
  | .GroupCoordinatorNotAvailable =>
      (coordinator_dead s, .failed (.inst .GroupCoordinatorNotAvailable .noArg))
  | .NotCoordinatorForGroup =>
      (coordinator_dead s, .failed (.inst .NotCoordinatorForGroup .noArg))
  | .InconsistentGroupProtocol =>
      (s, .failed (.inst .InconsistentGroupProtocol .resp))
  | .InvalidSessionTimeout =>
      (s, .failed (.inst .InvalidSessionTimeout .resp))
  | .InvalidGroupId =>
      (s, .failed (.inst .InvalidGroupId .resp))
  | .GroupAuthorizationFailed =>
      (s, .failed (.inst .GroupAuthorizationFailed (.str s.group_id)))
  | k => (s, .failed (.inst k .noArg))

/-- `BaseCoordinator._handle_sync_group_response`. On success the future
resolves to `response.member_assignment`; every error path first sets
`rejoin_needed = True`. -/
def handle_sync_group_response (s : CoordState) (r : SyncGroupResponse) :
    CoordState × Except Err Bytes :=
  match for_code r.error_code with
  | .NoError => (s, .ok r.member_assignment)
  | .GroupAuthorizationFailed =>
      ({ s with rejoin_needed := true },
       .error (.inst .GroupAuthorizationFailed (.str s.group_id)))
  | .RebalanceInProgress =>
      ({ s with rejoin_needed := true },
       .error (.inst .RebalanceInProgress (.str s.group_id)))
  | .UnknownMemberId =>
      ({ s with rejoin_needed := true, member_id := UNKNOWN_MEMBER_ID },
       .error (.inst .UnknownMemberId .noArg))
  | .IllegalGeneration =>
      ({ s with rejoin_needed := true, member_id := UNKNOWN_MEMBER_ID },
       .error (.inst .IllegalGeneration .noArg))
  | .GroupCoordinatorNotAvailable =>
      (coordinator_dead { s with rejoin_needed := true },
       .error (.inst .GroupCoordinatorNotAvailable .noArg))
  | .NotCoordinatorForGroup =>
      (coordinator_dead { s with rejoin_needed := true },
       .error (.inst .NotCoordinatorForGroup .noArg))
  | k => ({ s with rejoin_needed := true }, .error (.inst k .noArg))

/-- `BaseCoordinator._handle_heartbeat_response`. Note the
`UnknownMemberId` branch passes the bare class `error_type` (not a
constructed instance) to `future.failure`, modelled by `Err.cls`. -/
def handle_heartbeat_response (s : CoordState) (r : HeartbeatResponse) :
    CoordState × Except Err Unit :=
  match for_code r.error_code with
  | .NoError => (s, .ok ())
  | .GroupCoordinatorNotAvailable =>
      (coordinator_dead s, .error (.inst .GroupCoordinatorNotAvailable .noArg))
  | .NotCoordinatorForGroup =>
      (coordinator_dead s, .error (.inst .NotCoordinatorForGroup .noArg))
  | .RebalanceInProgress =>
      ({ s with rejoin_needed := true },
       .error (.inst .RebalanceInProgress .noArg))
  | .IllegalGeneration =>
      ({ s with rejoin_needed := true },
       .error (.inst .IllegalGeneration .noArg))
  | .UnknownMemberId =>
      ({ s with member_id := UNKNOWN_MEMBER_ID, rejoin_needed := true },
       .error (.cls .UnknownMemberId))
  | .GroupAuthorizationFailed =>
      (s, .error (.inst .GroupAuthorizationFailed (.str s.group_id)))
  | k => (s, .error (.inst k .noArg))

/-- `BaseCoordinator._failed_request` (errback installed on every send):
mark the coordinator dead and fail the future with the transport error. -/
def failed_request (s : CoordState) (e : Err) : CoordState × Err :=
  (coordinator_dead s, e)

/-- The `GroupPolicy` extension surface: the abstract methods a subclass
supplies (`protocol_type`, `group_protocols`, `_perform_assignment`).
Metadata and assignments are already encoded bytes (the
`isinstance(x, bytes)` / `x.encode()` dispatch at the wire boundary is
the identity on bytes). `perform_assignment` may raise, which
`_on_join_leader` converts to a failed future. -/
structure GroupPolicy where
  protocol_type : String
  group_protocols : List (String × Bytes)
  perform_assignment : String → String → List (String × Bytes) →
    Except Err (List (String × Bytes))

structure JoinGroupRequest where
  group : String
  session_timeout : Int
  member_id : String
  protocol_type : String
  group_protocols : List (String × Bytes)
  deriving DecidableEq, Repr

structure SyncGroupRequest where
  group : String
  generation_id : Int
  member_id : String
  group_assignment : List (String × Bytes)
  deriving DecidableEq, Repr

structure LeaveGroupRequest where
  group : String
  member_id : String
  deriving DecidableEq, Repr

structure HeartbeatRequest where
  group : String
  generation_id : Int
  member_id : String
  deriving DecidableEq, Repr

/-- `BaseCoordinator._perform_group_join`, up to the point where the
JoinGroup request is handed to the transport: if `coordinator_unknown()`
it returns an already-failed future carrying
`GroupCoordinatorNotAvailableError(self.coordinator_id)` (the id read
after the check's side-effect); otherwise the built request is sent. -/
def perform_group_join (p : GroupPolicy) (cl : ClientView) (s : CoordState) :
    CoordState × (Err ⊕ JoinGroupRequest) :=
  let (unk, s1) := coordinator_unknown cl s
  if unk then
    (s1, Sum.inl (.inst .GroupCoordinatorNotAvailable (.node s1.coordinator_id)))
  else
    (s1, Sum.inr { group := s1.group_id,
                   session_timeout := s1.session_timeout_ms,
                   member_id := s1.member_id,
                   protocol_type := p.protocol_type,
                   group_protocols := p.group_protocols })

/-- `BaseCoordinator._send_sync_group_request`: guard on
`coordinator_unknown()` returning an already-failed future with
`GroupCoordinatorNotAvailableError()`, else send the request. -/
def send_sync_group_request (cl : ClientView) (s : CoordState)
    (request : SyncGroupRequest) : CoordState × (Err ⊕ SyncGroupRequest) :=
  let (unk, s1) := coordinator_unknown cl s
  if unk then
    (s1, Sum.inl (.inst .GroupCoordinatorNotAvailable .noArg))
  else (s1, Sum.inr request)

/-- `BaseCoordinator.close`: unschedule the heartbeat task; if
`not coordinator_unknown() and generation > 0`, send a single
`LeaveGroup(group_id, member_id)`; then reset `generation`, `member_id`
and set `rejoin_needed`. Returns (state, heartbeat-task-scheduled flag,
LeaveGroup request sent if any). -/
def close (cl : ClientView) (s : CoordState) (_hb_scheduled : Bool) :
    CoordState × Bool × Option LeaveGroupRequest :=
  let (unk, s1) := coordinator_unknown cl s
  let leave : Option LeaveGroupRequest :=
    if unk = false ∧ 0 < s1.generation then
      some { group := s1.group_id, member_id := s1.member_id }
    else none
  ({ s1 with generation := DEFAULT_GENERATION_ID,
             member_id := UNKNOWN_MEMBER_ID,
             rejoin_needed := true }, false, leave)

/-- `BaseCoordinator._send_heartbeat_request`: the request payload
(`HeartbeatRequest(self.group_id, self.generation, self.member_id)`). -/
def send_heartbeat_request (s : CoordState) : HeartbeatRequest :=
  { group := s.group_id, generation_id := s.generation,
    member_id := s.member_id }

/-- `BaseCoordinator._handle_group_coordinator_response`. `add_ok` is the
result of `cluster.add_group_coordinator`; `hb_reset` in the result
records whether `heartbeat_task.reset()` was invoked. -/
def handle_group_coordinator_response (cl : ClientView) (add_ok : Bool)
    (s : CoordState) (r : GroupCoordinatorResponse) :
    CoordState × Except Err (Option Int) × Bool :=
  let (unk, s1) := coordinator_unknown cl s
  if unk = false then
    (s1, .ok s1.coordinator_id, false)
  else
    match for_code r.error_code with
    | .NoError =>
        if add_ok = false then
          (s1, .error (.inst .IllegalState .noArg), false)
        else
          ({ s1 with coordinator_id := some r.coordinator_id },
           .ok (some r.coordinator_id), decide (0 < s1.generation))
    | .GroupCoordinatorNotAvailable =>
        (s1, .error (.inst .GroupCoordinatorNotAvailable .noArg), false)
    | .GroupAuthorizationFailed =>
        (s1, .error (.inst .GroupAuthorizationFailed (.str s1.group_id)), false)
    | k => (s1, .error (.inst k .noArg), false)

/-!
### HeartbeatClock (`kafka/coordinator/heartbeat.py`)

Modelled from the spec: the `Heartbeat` clock class is not under `src/`
(only its construction and calls appear in `base.py`), so its state and
predicates follow the spec, section 3 and 4.4: markers `lastSend` and
`lastReceive`, with `sessionExpired() ≡ now - lastReceive ≥
sessionTimeoutMs`, `shouldHeartbeat() ≡ now - lastSend ≥
heartbeatIntervalMs`, and `ttl() ≡ max(0, heartbeatIntervalMs - (now -
lastSend))`. It is constructed with the coordinator's config.
-/

structure HBClock where
  session_timeout_ms : Int
  heartbeat_interval_ms : Int
  last_send : Int
  last_receive : Int
  deriving DecidableEq, Repr

/-- Modelled from the spec: `sessionExpired() ≡ now - lastReceive ≥ sessionTimeoutMs`. -/
def HBClock.session_expired (c : HBClock) (now : Int) : Bool :=
  decide (c.session_timeout_ms ≤ now - c.last_receive)

/-- Modelled from the spec: `shouldHeartbeat() ≡ now - lastSend ≥ heartbeatIntervalMs`. -/
def HBClock.should_heartbeat (c : HBClock) (now : Int) : Bool :=
  decide (c.heartbeat_interval_ms ≤ now - c.last_send)

/-- Modelled from the spec: `ttl() ≡ max(0, heartbeatIntervalMs - (now - lastSend))`. -/
def HBClock.ttl (c : HBClock) (now : Int) : Int :=
  max 0 (c.heartbeat_interval_ms - (now - c.last_send))

/-- What a single `HeartbeatTask.__call__` firing does besides mutating
coordinator state: return without rescheduling (the skip and
session-expired paths), reschedule at a given time, or send a heartbeat
request with callbacks attached. -/
inductive FireAction where
  | skip
  | markDead
  | reschedule (at_time : Int)
  | sendHeartbeat (req : HeartbeatRequest)
  deriving DecidableEq, Repr

/-- `HeartbeatTask.__call__`, with the short-circuit order of the guard
`generation < 0 or need_rejoin() or coordinator_unknown()` preserved
(`coordinator_unknown`'s side-effect only runs when reached). -/
def heartbeat_task_call (cl : ClientView) (s : CoordState) (clk : HBClock)
    (now : Int) : CoordState × FireAction :=
  if s.generation < 0 then (s, .skip)
  else if s.rejoin_needed then (s, .skip)
  else
    let (unk, s1) := coordinator_unknown cl s
    if unk then (s1, .skip)
    else if clk.session_expired now then (coordinator_dead s1, .markDead)
    else if !clk.should_heartbeat now then
      (s1, .reschedule (now + clk.ttl now))
    else (s1, .sendHeartbeat (send_heartbeat_request s1))

/-!
### HeartbeatTask request/scheduling step system

The task's own state is the boolean `_request_in_flight`; `scheduled`
records whether a firing is pending with the client's scheduler (the
scheduler holds at most one entry for the task: every `schedule` call is
either preceded by `unschedule` or made from a context where no entry
exists); `outstanding` counts heartbeat requests on the wire. A firing
(`__call__`) can only occur while scheduled, and consumes the entry.
-/

structure HBTaskState where
  request_in_flight : Bool
  scheduled : Bool
  outstanding : Nat
  deriving DecidableEq, Repr

/-- The atomic events of the HeartbeatTask: `reset()`, the four exits of
`__call__` (skip via the guard, session-expired, reschedule-for-later,
send-heartbeat), and the two completion callbacks. -/
inductive HBStep where
  | reset
  | fireSkip
  | fireExpired
  | fireDefer
  | fireSend
  | success
  | failure
  deriving DecidableEq, Repr

/-- Enabledness: firings require a scheduled entry; callbacks require an
outstanding request. -/
def hbEnabled (t : HBTaskState) : HBStep → Bool
  | .reset => true
  | .fireSkip => t.scheduled
  | .fireExpired => t.scheduled
  | .fireDefer => t.scheduled
  | .fireSend => t.scheduled
  | .success => t.outstanding ≠ 0
  | .failure => t.outstanding ≠ 0

/-- Effect of each step on the task state, from the source:
`reset()` unschedules, then schedules iff `not self._request_in_flight`;
a firing consumes the scheduler entry; the defer branch reschedules; the
send branch sets `_request_in_flight = True` and issues a request; each
callback first clears `_request_in_flight`, then reschedules. -/
def hbApply (t : HBTaskState) : HBStep → HBTaskState
  | .reset => { t with scheduled := !t.request_in_flight }
  | .fireSkip => { t with scheduled := false }
  | .fireExpired => { t with scheduled := false }
  | .fireDefer => { t with scheduled := true }
  | .fireSend =>
      { t with scheduled := false, request_in_flight := true,
               outstanding := t.outstanding + 1 }
  | .success =>
      { t with request_in_flight := false, scheduled := true,
               outstanding := t.outstanding - 1 }
  | .failure =>
      { t with request_in_flight := false, scheduled := true,
               outstanding := t.outstanding - 1 }

/-- A run of the step system, applying only enabled steps in order. -/
def hbRun (t : HBTaskState) : List HBStep → HBTaskState
  | [] => t
  | st :: rest => hbRun (hbApply t st) rest

/-- Validity of a run: every step is enabled when taken. -/
def hbRunOk (t : HBTaskState) : List HBStep → Bool
  | [] => true
  | st :: rest => hbEnabled t st && hbRunOk (hbApply t st) rest

/-- Task state at construction: `_request_in_flight = False`, nothing
scheduled, nothing on the wire. -/
def hbInit : HBTaskState :=
  { request_in_flight := false, scheduled := false, outstanding := 0 }

/-- The single-in-flight invariant: the wire count matches the
`_request_in_flight` flag (hence is at most one), and no firing is
pending while a request is in flight. -/
def hbInv (t : HBTaskState) : Prop :=
  t.outstanding = (if t.request_in_flight then 1 else 0) ∧
  (t.scheduled = true → t.request_in_flight = false)

/-!
### `ensure_active_group` as a trace-producing function

`ensure_active_group` is driven by the responses the broker returns; a
`Round` is the outcome of one iteration of the `while need_rejoin()`
loop: either the transport errback fires (`_failed_request`), or a
JoinGroup response arrives, followed (when the join succeeds and a
SyncGroup request goes out) by a SyncGroup response. The observable
events are recorded in a trace. `ensure_coordinator_known()` is assumed
to succeed at the head of each iteration (it blocks until it does).
-/

inductive Event where
  | prepare (generation : Int) (member_id : String)
  | joinRequest (member_id : String)
  | joinComplete (generation : Int) (member_id : String)
      (protocol : Option String) (assignment : Bytes)
  | heartbeatReset
  | sleepBackoff (ms : Int)
  deriving DecidableEq, Repr

inductive Round where
  | rjoin (jr : JoinGroupResponse) (sr : SyncGroupResponse)
  | rtransportFail (e : Err)
  deriving Repr

/-- One iteration's effect on the coordinator state and the resulting
future outcome: `_handle_join_group_response`, then (on `NoError`)
`_on_join_leader` (which runs `_perform_assignment` and converts an
exception into a failed future) or `_on_join_follower`, then
`_handle_sync_group_response`; or `_failed_request` on transport error. -/
def runRound (p : GroupPolicy) (s : CoordState) :
    Round → CoordState × Except Err Bytes
  | .rtransportFail e => (coordinator_dead s, .error e)
  | .rjoin jr sr =>
      let (s1, act) := handle_join_group_response s jr
      match act with
      | .failed e => (s1, .error e)
      | .toSync =>
          if jr.leader_id = jr.member_id then
            match p.perform_assignment jr.leader_id jr.group_protocol
                jr.members with
            | .error e => (s1, .error e)
            | .ok _ => handle_sync_group_response s1 sr
          else handle_sync_group_response s1 sr

/-- The `while self.need_rejoin()` loop of `ensure_active_group`. On
future success: `_on_join_complete(self.generation, self.member_id,
self.protocol, bytes)`, `needs_join_prepare = True`,
`heartbeat_task.reset()`. On failure: membership errors loop
immediately, non-retriable errors are raised, other retriable errors
sleep `retry_backoff_ms` first. Returns (state, trace, raised error). -/
def loopAG (p : GroupPolicy) (s : CoordState) :
    List Round → CoordState × List Event × Option Err
  | [] => (s, [], none)
  | r :: rest =>
      if s.rejoin_needed = false then (s, [], none)
      else
        let (s1, res) := runRound p s r
        match res with
        | .ok assignment =>
            let (s2, evs, raised) :=
              loopAG p { s1 with needs_join_prepare := true } rest
            (s2, .joinRequest s.member_id ::
                 .joinComplete s1.generation s1.member_id s1.protocol
                   assignment ::
                 .heartbeatReset :: evs, raised)
        | .error e =>
            if e.isMembershipInstance then
              let (s2, evs, raised) := loopAG p s1 rest
              (s2, .joinRequest s.member_id :: evs, raised)
            else if e.retriable = false then
              (s1, [.joinRequest s.member_id], some e)
            else
              let (s2, evs, raised) := loopAG p s1 rest
              (s2, .joinRequest s.member_id ::
                   .sleepBackoff s.retry_backoff_ms :: evs, raised)

/-- `BaseCoordinator.ensure_active_group`: return immediately when no
rejoin is needed; run `_on_join_prepare(self.generation,
self.member_id)` once when `needs_join_prepare`; then the join loop. -/
def ensure_active_group (p : GroupPolicy) (s : CoordState)
    (script : List Round) : CoordState × List Event × Option Err :=
  if s.rejoin_needed = false then (s, [], none)
  else
    let (s1, pre) :=
      if s.needs_join_prepare then
        ({ s with needs_join_prepare := false },
         [Event.prepare s.generation s.member_id])
      else (s, ([] : List Event))
    let (s2, evs, raised) := loopAG p s1 script
    (s2, pre ++ evs, raised)

/-- Number of `prepare` events in a trace. -/
def countPrepare (evs : List Event) : Nat :=
  evs.countP fun e => match e with | .prepare _ _ => true | _ => false

/-!
### Coordinator operations, for invariant preservation

Every state-mutating entry point of `BaseCoordinator` and the
coordinator-visible effect of the `HeartbeatTask` firing, as one step
type.
-/

inductive CoordOp where
  | joinResp (jr : JoinGroupResponse)
  | syncResp (sr : SyncGroupResponse)
  | heartbeatResp (r : HeartbeatResponse)
  | groupCoordResp (cl : ClientView) (add_ok : Bool)
      (r : GroupCoordinatorResponse)
  | transportFailed (e : Err)
  | checkUnknown (cl : ClientView)
  | closeOp (cl : ClientView)
  | hbTaskFire (cl : ClientView) (clk : HBClock) (now : Int)

def applyOp (s : CoordState) : CoordOp → CoordState
  | .joinResp jr => (handle_join_group_response s jr).1
  | .syncResp sr => (handle_sync_group_response s sr).1
  | .heartbeatResp r => (handle_heartbeat_response s r).1
  | .groupCoordResp cl add_ok r =>
      (handle_group_coordinator_response cl add_ok s r).1
  | .transportFailed e => (failed_request s e).1
  | .checkUnknown cl => (coordinator_unknown cl s).2
  | .closeOp cl => (close cl s false).1
  | .hbTaskFire cl clk now => (heartbeat_task_call cl s clk now).1

/-- Well-formedness of a broker JoinGroup reply that reports success: the
broker assigns a non-negative generation and a non-empty member id. -/
def wfJoinResponse (jr : JoinGroupResponse) : Bool :=
  decide (0 ≤ jr.generation_id) && decide (jr.member_id ≠ UNKNOWN_MEMBER_ID)

/-- Precondition under which each operation runs in the system: a
JoinGroup response only arrives while a rejoin is in progress
(`ensure_active_group` only sends joins while `need_rejoin()`), and the
broker reply is well-formed; every other operation is unrestricted. -/
def okOp (s : CoordState) : CoordOp → Bool
  | .joinResp jr => s.rejoin_needed && wfJoinResponse jr
  | _ => true

def applyOps (s : CoordState) : List CoordOp → CoordState
  | [] => s
  | op :: rest => applyOps (applyOp s op) rest

def okOps (s : CoordState) : List CoordOp → Bool
  | [] => true
  | op :: rest => okOp s op && okOps (applyOp s op) rest

/-- The stable-state invariant exactly as the spec states it:
`rejoinNeeded == false` implies `generation ≥ 0`, `memberId ≠
UNKNOWN_MEMBER` and `coordinatorId` is set. -/
def stableInvFull (s : CoordState) : Prop :=
  s.rejoin_needed = false →
    0 ≤ s.generation ∧ s.member_id ≠ UNKNOWN_MEMBER_ID ∧
    s.coordinator_id ≠ none

/-- The amended stable-state invariant, without the `coordinatorId`
conjunct. -/
def stableInv (s : CoordState) : Prop :=
  s.rejoin_needed = false →
    0 ≤ s.generation ∧ s.member_id ≠ UNKNOWN_MEMBER_ID

/-!
### Concrete sample values
-/

/-- A transport on which every node is connected and ready. -/
def clientUp : ClientView :=
  { is_disconnected := fun _ => false, ready := fun _ => true }

/-- A transport on which every node is disconnected. -/
def clientDown : ClientView :=
  { is_disconnected := fun _ => true, ready := fun _ => false }

/-- A sample policy: the "range" protocol with empty metadata, assigning
nothing. -/
def samplePolicy : GroupPolicy :=
  { protocol_type := "consumer",
    group_protocols := [("range", [])],
    perform_assignment := fun _ _ _ => .ok [] }

/-- A freshly constructed coordinator state (`BaseCoordinator.__init__`
with the default config). -/
def initState : CoordState :=
  { group_id := "kafka-python-default-group",
    session_timeout_ms := 30000,
    heartbeat_interval_ms := 3000,
    retry_backoff_ms := 100,
    generation := DEFAULT_GENERATION_ID,
    member_id := UNKNOWN_MEMBER_ID,
    coordinator_id := none,
    rejoin_needed := true,
    needs_join_prepare := true,
    protocol := none }

/-- A stable post-join state: generation 3, member `m1`, coordinator 7. -/
def stableState : CoordState :=
  { initState with generation := 3, member_id := "m1",
                   coordinator_id := some 7, rejoin_needed := false,
                   protocol := some "range" }

/-!
### Helper lemmas
-/

/-- Two states agreeing on the fields the stable-state invariant reads. -/
def sameCore (a b : CoordState) : Prop :=
  a.generation = b.generation ∧ a.member_id = b.member_id ∧
  a.rejoin_needed = b.rejoin_needed

lemma sameCore_refl (s : CoordState) : sameCore s s := ⟨rfl, rfl, rfl⟩

lemma stableInv_of_sameCore {a b : CoordState} (h : sameCore a b)
    (hb : stableInv b) : stableInv a := by
  intro hr
  rcases h with ⟨h1, h2, h3⟩
  rw [h3] at hr
  rw [h1, h2]
  exact hb hr

lemma sameCore_coordinator_dead (s : CoordState) :
    sameCore (coordinator_dead s) s := ⟨rfl, rfl, rfl⟩

lemma coordinator_unknown_snd (cl : ClientView) (s : CoordState) :
    sameCore (coordinator_unknown cl s).2 s := by
  unfold coordinator_unknown
  cases s.coordinator_id with
  | none => exact sameCore_refl s
  | some n =>
      simp only
      split
      · exact sameCore_coordinator_dead s
      · exact sameCore_refl s

lemma sameCore_trans {a b c : CoordState} (h1 : sameCore a b)
    (h2 : sameCore b c) : sameCore a c :=
  ⟨h1.1.trans h2.1, h1.2.1.trans h2.2.1, h1.2.2.trans h2.2.2⟩

lemma heartbeat_task_call_fst (cl : ClientView) (s : CoordState)
    (clk : HBClock) (now : Int) :
    sameCore (heartbeat_task_call cl s clk now).1 s := by
  unfold heartbeat_task_call
  split
  · exact sameCore_refl s
  · split
    · exact sameCore_refl s
    · rcases hcu : coordinator_unknown cl s with ⟨unk, s1⟩
      have hs1 : sameCore s1 s := by
        have := coordinator_unknown_snd cl s
        rw [hcu] at this
        exact this
      simp only
      split
      · exact hs1
      · split
        · rcases hs1 with ⟨a, b, c⟩
          exact ⟨a, b, c⟩
        · split
          · exact hs1
          · exact hs1

lemma handle_join_rejoin_of_ne (s : CoordState) (jr : JoinGroupResponse)
    (h : for_code jr.error_code ≠ .NoError) :
    (handle_join_group_response s jr).1.rejoin_needed = s.rejoin_needed := by
  cases hk : for_code jr.error_code <;>
    simp [handle_join_group_response, hk, coordinator_dead]
  exact absurd hk h

lemma handle_sync_fst_cases (s : CoordState) (sr : SyncGroupResponse) :
    (handle_sync_group_response s sr).1 = s ∨
    (handle_sync_group_response s sr).1.rejoin_needed = true := by
  cases hk : for_code sr.error_code <;>
    simp [handle_sync_group_response, hk, coordinator_dead]

lemma handle_heartbeat_fst_cases (s : CoordState) (r : HeartbeatResponse) :
    sameCore (handle_heartbeat_response s r).1 s ∨
    (handle_heartbeat_response s r).1.rejoin_needed = true := by
  cases hk : for_code r.error_code <;>
    simp [handle_heartbeat_response, hk] <;>
    exact Or.inl (sameCore_coordinator_dead s)

lemma handle_group_coordinator_fst (cl : ClientView) (add_ok : Bool)
    (s : CoordState) (r : GroupCoordinatorResponse) :
    sameCore (handle_group_coordinator_response cl add_ok s r).1 s := by
  unfold handle_group_coordinator_response
  rcases hcu : coordinator_unknown cl s with ⟨unk, s1⟩
  have hs1 : sameCore s1 s := by
    have := coordinator_unknown_snd cl s
    rw [hcu] at this
    exact this
  simp only
  split
  · exact hs1
  · cases hk : for_code r.error_code <;> simp only
    case NoError =>
      split
      · exact hs1
      · exact sameCore_trans ⟨rfl, rfl, rfl⟩ hs1
    all_goals exact hs1

/-- Preservation of the amended stable-state invariant by one operation. -/
lemma stableInv_applyOp (s : CoordState) (op : CoordOp)
    (h1 : stableInv s) (h2 : okOp s op = true) :
    stableInv (applyOp s op) := by
  cases op with
  | joinResp jr =>
      have h2' : s.rejoin_needed = true ∧ 0 ≤ jr.generation_id ∧
          jr.member_id ≠ UNKNOWN_MEMBER_ID := by
        simpa [okOp, wfJoinResponse] using h2
      obtain ⟨hrj, hg, hm⟩ := h2'
      show stableInv (handle_join_group_response s jr).1
      by_cases hk : for_code jr.error_code = .NoError
      · simp only [handle_join_group_response, hk]
        intro _
        exact ⟨hg, hm⟩
      · intro hf
        rw [handle_join_rejoin_of_ne s jr hk, hrj] at hf
        cases hf
  | syncResp sr =>
      show stableInv (handle_sync_group_response s sr).1
      rcases handle_sync_fst_cases s sr with h | h
      · rw [h]; exact h1
      · intro hf
        rw [h] at hf
        cases hf
  | heartbeatResp r =>
      show stableInv (handle_heartbeat_response s r).1
      rcases handle_heartbeat_fst_cases s r with h | h
      · exact stableInv_of_sameCore h h1
      · intro hf
        rw [h] at hf
        cases hf
  | groupCoordResp cl add_ok r =>
      exact stableInv_of_sameCore (handle_group_coordinator_fst cl add_ok s r) h1
  | transportFailed e =>
      exact stableInv_of_sameCore (sameCore_coordinator_dead s) h1
  | checkUnknown cl =>
      exact stableInv_of_sameCore (coordinator_unknown_snd cl s) h1
  | closeOp cl =>
      intro hf
      cases hf
  | hbTaskFire cl clk now =>
      exact stableInv_of_sameCore (heartbeat_task_call_fst cl s clk now) h1

/-!
### C1 — stable-state invariant
-/

/-- C1 (counterexample): the invariant as claimed — including the
`coordinatorId is set` conjunct — is not preserved by the
heartbeat-response handler: from the stable state (generation 3, member
`m1`, coordinator 7, `rejoin_needed = false`), a Heartbeat response with
error code 16 (`NotCoordinatorForGroup`) clears `coordinator_id` while
leaving `rejoin_needed = false`, so the claimed invariant fails. -/
theorem C1_full_invariant_counterexample :
    stableInvFull stableState ∧
    okOp stableState (.heartbeatResp { error_code := 16 }) = true ∧
    ¬ stableInvFull (applyOp stableState (.heartbeatResp { error_code := 16 })) := by
  refine ⟨fun _ => ⟨by decide, by decide, by decide⟩, rfl, ?_⟩
  intro h
  have := (h (by decide)).2.2
  exact this (by decide)

/-- C1 (amended): dropping the `coordinatorId` conjunct, the invariant
`rejoin_needed = false → generation ≥ 0 ∧ member_id ≠ UNKNOWN_MEMBER` is
preserved by every sequence of Coordinator / HeartbeatTask operations —
including the heartbeat-response handler that marks the coordinator dead
without setting `rejoin_needed` — provided JoinGroup responses only
arrive during a rejoin and well-formed success replies carry a
non-negative generation and non-empty member id. -/
theorem C1_stable_state_invariant (s : CoordState) (ops : List CoordOp)
    (h1 : stableInv s) (h2 : okOps s ops = true) :
    stableInv (applyOps s ops) := by
  induction ops generalizing s with
  | nil => exact h1
  | cons op rest ih =>
      have h2' : okOp s op = true ∧ okOps (applyOp s op) rest = true := by
        simpa [okOps] using h2
      exact ih (applyOp s op) (stableInv_applyOp s op h1 h2'.1) h2'.2

/-- C1 (witness): the amended invariant theorem applied to a concrete run:
a successful join adopting (generation 3, member `m1`), then a heartbeat
reply `NotCoordinatorForGroup` that kills the coordinator, then a
coordinator-unknown check on a disconnected transport. -/
theorem C1_stable_state_invariant_witness :
    stableInv (applyOps initState
      [ .joinResp { error_code := 0, generation_id := 3, member_id := "m1",
                    leader_id := "m2", group_protocol := "range",
                    members := [] },
        .heartbeatResp { error_code := 16 },
        .checkUnknown clientDown ]) :=
  C1_stable_state_invariant initState _
    (fun h => absurd h (by decide)) (by decide)

/-!
### C4 — SyncGroup error handling
-/

/-- C4: for every SyncGroup response whose error code is not `NoError`,
`_handle_sync_group_response` sets `rejoin_needed`, fails the future; for
`UnknownMemberId` / `IllegalGeneration` it resets `member_id`; for
`GroupCoordinatorNotAvailable` / `NotCoordinatorForGroup` it clears
`coordinator_id`; for `GroupAuthorizationFailed` the delivered error is a
non-retriable instance carrying the group id. -/
theorem C4_sync_group_error_handling (s : CoordState) (r : SyncGroupResponse)
    (h : for_code r.error_code ≠ .NoError) :
    (handle_sync_group_response s r).1.rejoin_needed = true ∧
    (∃ e, (handle_sync_group_response s r).2 = .error e) ∧
    ((for_code r.error_code = .UnknownMemberId ∨
      for_code r.error_code = .IllegalGeneration) →
        (handle_sync_group_response s r).1.member_id = UNKNOWN_MEMBER_ID) ∧
    ((for_code r.error_code = .GroupCoordinatorNotAvailable ∨
      for_code r.error_code = .NotCoordinatorForGroup) →
        (handle_sync_group_response s r).1.coordinator_id = none) ∧
    (for_code r.error_code = .GroupAuthorizationFailed →
        (handle_sync_group_response s r).2 =
          .error (.inst .GroupAuthorizationFailed (.str s.group_id)) ∧
        (Err.inst .GroupAuthorizationFailed (.str s.group_id)).retriable
          = false) := by
  cases hk : for_code r.error_code <;>
    simp [handle_sync_group_response, hk, coordinator_dead, Err.retriable,
          Err.kind, ErrorKind.retriableAttr]
  exact absurd hk h

/-- C4 (witness): the SyncGroup error-handling theorem at a concrete
`UnknownMemberId` (code 25) response against the stable state. -/
theorem C4_sync_group_error_handling_witness :
    (handle_sync_group_response stableState
        { error_code := 25, member_assignment := [] }).1.rejoin_needed
      = true ∧
    (handle_sync_group_response stableState
        { error_code := 25, member_assignment := [] }).1.member_id
      = UNKNOWN_MEMBER_ID := by
  have h := C4_sync_group_error_handling stableState
    { error_code := 25, member_assignment := [] } (by decide)
  exact ⟨h.1, h.2.2.1 (by decide)⟩

/-!
### C9 — Heartbeat UnknownMemberId passes the class, not an instance
-/

/-- C9 (code bug, per the spec's own note): on a Heartbeat response with
error code 25 (`UnknownMemberId`), `_handle_heartbeat_response` resets
`member_id` and sets `rejoin_needed`, but passes the bare error class —
not a constructed instance — to `future.failure`. -/
theorem C9_heartbeat_unknown_member_class_bug :
    handle_heartbeat_response stableState { error_code := 25 } =
      ({ stableState with member_id := UNKNOWN_MEMBER_ID,
                          rejoin_needed := true },
       .error (.cls .UnknownMemberId)) ∧
    ∀ a : ErrArg,
      (handle_heartbeat_response stableState { error_code := 25 }).2 ≠
        .error (.inst .UnknownMemberId a) := by
  constructor
  · decide
  · intro a
    have h : (handle_heartbeat_response stableState { error_code := 25 }).2 =
        .error (.cls .UnknownMemberId) := by decide
    rw [h]
    simp

/-!
### C10 — guard on join/sync send while the coordinator is unknown
-/

lemma coordinator_unknown_snd_eq (cl : ClientView) (s : CoordState) :
    (coordinator_unknown cl s).2 =
      { s with coordinator_id := (coordinator_unknown cl s).2.coordinator_id } := by
  unfold coordinator_unknown
  cases s.coordinator_id with
  | none => rfl
  | some n =>
      simp only
      split
      · rfl
      · rfl

/-- C10: when `coordinator_unknown()` reports true, `_perform_group_join`
and `_send_sync_group_request` return an already-failed future carrying a
retriable `GroupCoordinatorNotAvailableError` (the join variant holding
the post-check `coordinator_id`), send nothing, and modify no field other
than `coordinator_id` (via the disconnected check's side-effect). -/
theorem C10_coordinator_unknown_guard (p : GroupPolicy) (cl : ClientView)
    (s : CoordState) (req : SyncGroupRequest)
    (h : (coordinator_unknown cl s).1 = true) :
    perform_group_join p cl s =
      ((coordinator_unknown cl s).2,
       Sum.inl (.inst .GroupCoordinatorNotAvailable
         (.node (coordinator_unknown cl s).2.coordinator_id))) ∧
    send_sync_group_request cl s req =
      ((coordinator_unknown cl s).2,
       Sum.inl (.inst .GroupCoordinatorNotAvailable .noArg)) ∧
    (Err.inst .GroupCoordinatorNotAvailable
       (.node (coordinator_unknown cl s).2.coordinator_id)).retriable
      = true ∧
    (coordinator_unknown cl s).2 =
      { s with coordinator_id :=
          (coordinator_unknown cl s).2.coordinator_id } := by
  refine ⟨?_, ?_, rfl, coordinator_unknown_snd_eq cl s⟩ <;>
  · rcases hcu : coordinator_unknown cl s with ⟨unk, s1⟩
    rw [hcu] at h
    simp only at h
    subst h
    simp [perform_group_join, send_sync_group_request, hcu]

/-- C10 (witness): the guard theorem at the stable state over a transport
that reports the coordinator disconnected. -/
theorem C10_coordinator_unknown_guard_witness :
    perform_group_join samplePolicy clientDown stableState =
      ((coordinator_unknown clientDown stableState).2,
       Sum.inl (.inst .GroupCoordinatorNotAvailable
         (.node (coordinator_unknown clientDown stableState).2.coordinator_id))) ∧
    send_sync_group_request clientDown stableState
        { group := "kafka-python-default-group", generation_id := 3,
          member_id := "m1", group_assignment := [] } =
      ((coordinator_unknown clientDown stableState).2,
       Sum.inl (.inst .GroupCoordinatorNotAvailable .noArg)) ∧
    (Err.inst .GroupCoordinatorNotAvailable
       (.node (coordinator_unknown clientDown stableState).2.coordinator_id)).retriable
      = true ∧
    (coordinator_unknown clientDown stableState).2 =
      { stableState with coordinator_id :=
          (coordinator_unknown clientDown stableState).2.coordinator_id } :=
  C10_coordinator_unknown_guard samplePolicy clientDown stableState
    { group := "kafka-python-default-group", generation_id := 3,
      member_id := "m1", group_assignment := [] } (by decide)

/-!
### C8 — close idempotence
-/

/-- C8: starting from any state, a second `close()` reproduces the
terminal state of the first (generation `-1`, member id reset,
`rejoin_needed = true`, heartbeat task unscheduled) and sends no
LeaveGroup request. -/
theorem C8_close_idempotent (cl : ClientView) (s : CoordState) (b : Bool) :
    (close cl (close cl s b).1 (close cl s b).2.1).1 = (close cl s b).1 ∧
    (close cl (close cl s b).1 (close cl s b).2.1).2.2 = none ∧
    (close cl s b).2.1 = false ∧
    (close cl s b).1.generation = DEFAULT_GENERATION_ID ∧
    (close cl s b).1.member_id = UNKNOWN_MEMBER_ID ∧
    (close cl s b).1.rejoin_needed = true := by
  rcases h1 : s.coordinator_id with _ | n
  · simp [close, coordinator_unknown, h1, DEFAULT_GENERATION_ID,
          UNKNOWN_MEMBER_ID]
  · cases hd : cl.is_disconnected n
    · cases hr : cl.ready n
      · simp [close, coordinator_unknown, coordinator_dead, h1, hd, hr,
              DEFAULT_GENERATION_ID, UNKNOWN_MEMBER_ID]
      · simp [close, coordinator_unknown, coordinator_dead, h1, hd, hr,
              DEFAULT_GENERATION_ID, UNKNOWN_MEMBER_ID]
    · simp [close, coordinator_unknown, coordinator_dead, h1, hd,
            DEFAULT_GENERATION_ID, UNKNOWN_MEMBER_ID]

/-!
### C7 — session expiry at a heartbeat firing
-/

/-- C7 (counterexample): the claim quantifies over every firing, but the
first guard of `HeartbeatTask.__call__` precedes the expiry check: with
`rejoin_needed = true`, a firing at an expired session returns without
clearing `coordinator_id`. -/
theorem C7_expired_fire_counterexample :
    HBClock.session_expired
      { session_timeout_ms := 30000, heartbeat_interval_ms := 3000,
        last_send := 0, last_receive := 0 } 40000 = true ∧
    heartbeat_task_call clientUp { stableState with rejoin_needed := true }
      { session_timeout_ms := 30000, heartbeat_interval_ms := 3000,
        last_send := 0, last_receive := 0 } 40000 =
      ({ stableState with rejoin_needed := true }, .skip) ∧
    ({ stableState with rejoin_needed := true } : CoordState).coordinator_id
      = some 7 := by
  refine ⟨by decide, by decide, by decide⟩

/-- C7 (amended): whenever the HeartbeatTask fires in a heartbeatable
state (`generation ≥ 0`, no rejoin pending, coordinator known) at a time
when the session has expired, it marks the coordinator dead —
`coordinator_id` is cleared — and returns without rescheduling. -/
theorem C7_session_expiry_marks_dead (cl : ClientView) (s : CoordState)
    (clk : HBClock) (now : Int)
    (h1 : 0 ≤ s.generation) (h2 : s.rejoin_needed = false)
    (h3 : (coordinator_unknown cl s).1 = false)
    (h4 : clk.session_expired now = true) :
    heartbeat_task_call cl s clk now =
      (coordinator_dead (coordinator_unknown cl s).2, .markDead) ∧
    (heartbeat_task_call cl s clk now).1.coordinator_id = none := by
  have hng : ¬ (s.generation < 0) := by omega
  rcases hcu : coordinator_unknown cl s with ⟨unk, s1⟩
  rw [hcu] at h3
  simp only at h3
  subst h3
  have hmain : heartbeat_task_call cl s clk now =
      (coordinator_dead s1, .markDead) := by
    simp [heartbeat_task_call, hng, h2, hcu, h4]
  refine ⟨hmain, ?_⟩
  rw [hmain]
  rfl

/-- C7 (witness): the amended theorem against the stable state, a live
transport, and a clock whose last receive is a full session in the
past. -/
theorem C7_session_expiry_marks_dead_witness :
    heartbeat_task_call clientUp stableState
      { session_timeout_ms := 30000, heartbeat_interval_ms := 3000,
        last_send := 0, last_receive := 0 } 40000 =
      (coordinator_dead (coordinator_unknown clientUp stableState).2,
       .markDead) ∧
    (heartbeat_task_call clientUp stableState
      { session_timeout_ms := 30000, heartbeat_interval_ms := 3000,
        last_send := 0, last_receive := 0 } 40000).1.coordinator_id
      = none :=
  C7_session_expiry_marks_dead clientUp stableState
    { session_timeout_ms := 30000, heartbeat_interval_ms := 3000,
      last_send := 0, last_receive := 0 } 40000
    (by decide) (by decide) (by decide) (by decide)

/-!
### C3 — single in-flight heartbeat
-/

lemma hbInv_step (t : HBTaskState) (st : HBStep)
    (h1 : hbInv t) (h2 : hbEnabled t st = true) :
    hbInv (hbApply t st) := by
  obtain ⟨ho, hs⟩ := h1
  cases st <;>
    cases hrf : t.request_in_flight <;>
    simp_all [hbInv, hbApply, hbEnabled]

lemma hbInv_run (steps : List HBStep) (t : HBTaskState)
    (h1 : hbInv t) (h2 : hbRunOk t steps = true) :
    hbInv (hbRun t steps) := by
  induction steps generalizing t with
  | nil => exact h1
  | cons st rest ih =>
      have h2' : hbEnabled t st = true ∧
          hbRunOk (hbApply t st) rest = true := by
        simpa [hbRunOk] using h2
      exact ih (hbApply t st) (hbInv_step t st h1 h2'.1) h2'.2

/-- C3: along every valid run of the HeartbeatTask step system from the
initial state, at most one heartbeat request is outstanding (the wire
count equals the `_request_in_flight` flag and no firing is pending while
a request is in flight); moreover a pending firing implies
`_request_in_flight` is false (so a firing can only issue a request with
it false), `reset()` does not schedule while a request is in flight, and
both completion callbacks clear `_request_in_flight` and reschedule. -/
theorem C3_single_inflight_heartbeat (steps : List HBStep)
    (h : hbRunOk hbInit steps = true) :
    (hbRun hbInit steps).outstanding ≤ 1 ∧
    hbInv (hbRun hbInit steps) ∧
    (∀ t : HBTaskState, hbInv t → t.scheduled = true →
       t.request_in_flight = false) ∧
    (∀ t : HBTaskState, t.request_in_flight = true →
       (hbApply t .reset).scheduled = false) ∧
    (∀ t : HBTaskState,
       (hbApply t .success).request_in_flight = false ∧
       (hbApply t .failure).request_in_flight = false ∧
       (hbApply t .success).scheduled = true ∧
       (hbApply t .failure).scheduled = true) := by
  have hinv : hbInv (hbRun hbInit steps) :=
    hbInv_run steps hbInit ⟨rfl, fun _ => rfl⟩ h
  refine ⟨?_, hinv, ?_, ?_, ?_⟩
  · rw [hinv.1]
    split <;> omega
  · exact fun t h1 h2 => h1.2 h2
  · intro t h1
    simp [hbApply, h1]
  · intro t
    exact ⟨rfl, rfl, rfl, rfl⟩

/-- C3 (witness): the single-in-flight theorem on the concrete run
reset → fire-and-send → success callback. -/
theorem C3_single_inflight_heartbeat_witness :
    (hbRun hbInit [.reset, .fireSend, .success]).outstanding ≤ 1 ∧
    hbInv (hbRun hbInit [.reset, .fireSend, .success]) :=
  ⟨(C3_single_inflight_heartbeat [.reset, .fireSend, .success] (by decide)).1,
   (C3_single_inflight_heartbeat [.reset, .fireSend, .success] (by decide)).2.1⟩

/-!
### Trace lemmas for `ensure_active_group`
-/

@[simp] lemma countPrepare_nil : countPrepare [] = 0 := rfl

@[simp] lemma countPrepare_cons (e : Event) (evs : List Event) :
    countPrepare (e :: evs) =
      countPrepare evs + (match e with | .prepare _ _ => 1 | _ => 0) := by
  cases e <;> simp [countPrepare, List.countP_cons]

/-- Unfolding of one loop iteration whose round succeeds. -/
lemma loopAG_cons_ok (p : GroupPolicy) (s s1 : CoordState) (r : Round)
    (rest : List Round) (v : Bytes) (h : s.rejoin_needed = true)
    (hr : runRound p s r = (s1, .ok v)) :
    loopAG p s (r :: rest) =
      ((loopAG p { s1 with needs_join_prepare := true } rest).1,
       .joinRequest s.member_id ::
         .joinComplete s1.generation s1.member_id s1.protocol v ::
         .heartbeatReset ::
         (loopAG p { s1 with needs_join_prepare := true } rest).2.1,
       (loopAG p { s1 with needs_join_prepare := true } rest).2.2) := by
  rcases hl : loopAG p { s1 with needs_join_prepare := true } rest
    with ⟨s2, evs, raised⟩
  simp [loopAG, h, hr, hl]

/-- Unfolding of one loop iteration whose round fails with a
membership-invalidation error: loop immediately, no backoff event. -/
lemma loopAG_cons_mem (p : GroupPolicy) (s s1 : CoordState) (r : Round)
    (rest : List Round) (e : Err) (h : s.rejoin_needed = true)
    (hr : runRound p s r = (s1, .error e))
    (hmem : e.isMembershipInstance = true) :
    loopAG p s (r :: rest) =
      ((loopAG p s1 rest).1,
       .joinRequest s.member_id :: (loopAG p s1 rest).2.1,
       (loopAG p s1 rest).2.2) := by
  rcases hl : loopAG p s1 rest with ⟨s2, evs, raised⟩
  simp [loopAG, h, hr, hmem, hl]

/-- Unfolding of one loop iteration whose round fails with a
non-retriable error: the error is raised. -/
lemma loopAG_cons_fatal (p : GroupPolicy) (s s1 : CoordState) (r : Round)
    (rest : List Round) (e : Err) (h : s.rejoin_needed = true)
    (hr : runRound p s r = (s1, .error e))
    (hmem : e.isMembershipInstance = false)
    (hret : e.retriable = false) :
    loopAG p s (r :: rest) = (s1, [.joinRequest s.member_id], some e) := by
  simp [loopAG, h, hr, hmem, hret]

/-- Unfolding of one loop iteration whose round fails with a retriable
non-membership error: sleep `retry_backoff_ms`, then loop. -/
lemma loopAG_cons_backoff (p : GroupPolicy) (s s1 : CoordState) (r : Round)
    (rest : List Round) (e : Err) (h : s.rejoin_needed = true)
    (hr : runRound p s r = (s1, .error e))
    (hmem : e.isMembershipInstance = false)
    (hret : e.retriable = true) :
    loopAG p s (r :: rest) =
      ((loopAG p s1 rest).1,
       .joinRequest s.member_id :: .sleepBackoff s.retry_backoff_ms ::
         (loopAG p s1 rest).2.1,
       (loopAG p s1 rest).2.2) := by
  rcases hl : loopAG p s1 rest with ⟨s2, evs, raised⟩
  simp [loopAG, h, hr, hmem, hret, hl]

/-- The join loop itself never emits a `prepare` event: `_on_join_prepare`
runs only in the preamble of `ensure_active_group`. -/
lemma countPrepare_loopAG (script : List Round) (p : GroupPolicy)
    (s : CoordState) : countPrepare (loopAG p s script).2.1 = 0 := by
  induction script generalizing s with
  | nil => rfl
  | cons r rest ih =>
      by_cases hrj : s.rejoin_needed = false
      · simp [loopAG, hrj]
      · rw [Bool.not_eq_false] at hrj
        rcases hr : runRound p s r with ⟨s1, res⟩
        cases res with
        | ok v => rw [loopAG_cons_ok p s s1 r rest v hrj hr]; simp [ih]
        | error e =>
            cases hmem : e.isMembershipInstance with
            | true => rw [loopAG_cons_mem p s s1 r rest e hrj hr hmem]; simp [ih]
            | false =>
                cases hret : e.retriable with
                | false =>
                    rw [loopAG_cons_fatal p s s1 r rest e hrj hr hmem hret]
                    simp
                | true =>
                    rw [loopAG_cons_backoff p s s1 r rest e hrj hr hmem hret]
                    simp [ih]

/-- With a rejoin pending and a nonempty script, the first event of the
join loop is the JoinGroup request carrying the current `member_id`. -/
lemma loopAG_cons_head (p : GroupPolicy) (s : CoordState) (r : Round)
    (rest : List Round) (h : s.rejoin_needed = true) :
    (loopAG p s (r :: rest)).2.1.head? =
      some (.joinRequest s.member_id) := by
  rcases hr : runRound p s r with ⟨s1, res⟩
  cases res with
  | ok v => rw [loopAG_cons_ok p s s1 r rest v h hr]; rfl
  | error e =>
      cases hmem : e.isMembershipInstance with
      | true => rw [loopAG_cons_mem p s s1 r rest e h hr hmem]; rfl
      | false =>
          cases hret : e.retriable with
          | false => rw [loopAG_cons_fatal p s s1 r rest e h hr hmem hret]; rfl
          | true => rw [loopAG_cons_backoff p s s1 r rest e h hr hmem hret]; rfl

/-- A successful JoinGroup+SyncGroup round-trip from any state: adopt the
response's member id, generation and protocol, clear `rejoin_needed`,
and resolve the future to the sync response's assignment. -/
lemma runRound_success (p : GroupPolicy) (t : CoordState)
    (jr : JoinGroupResponse) (sr : SyncGroupResponse)
    (h2 : jr.error_code = 0) (h3 : sr.error_code = 0)
    (h4 : jr.leader_id = jr.member_id →
       ∃ ga, p.perform_assignment jr.leader_id jr.group_protocol jr.members
         = .ok ga) :
    runRound p t (.rjoin jr sr) =
      ({ t with member_id := jr.member_id, generation := jr.generation_id,
                rejoin_needed := false,
                protocol := some jr.group_protocol },
       .ok sr.member_assignment) := by
  have hkj : for_code jr.error_code = .NoError := by rw [h2]; rfl
  have hks : for_code sr.error_code = .NoError := by rw [h3]; rfl
  simp only [runRound, handle_join_group_response, hkj]
  by_cases hl : jr.leader_id = jr.member_id
  · obtain ⟨ga, hga⟩ := h4 hl
    rw [hl] at hga
    simp [hl, hga, handle_sync_group_response, hks]
  · simp [hl, handle_sync_group_response, hks]

/-!
### C2 — join/sync adoption round-trip
-/

/-- C2: a JoinGroup response with `NoError` carrying `(m, g)` followed by
a SyncGroup `NoError` response leaves the Coordinator with exactly
`member_id = m`, `generation = g`, `protocol` = the response's group
protocol, `rejoin_needed = false`, no raised error, and
`ensure_active_group` invokes `_on_join_complete(g, m, protocol,
assignment)` with the sync response's member assignment. (When elected
leader, `_perform_assignment` is assumed not to raise, else no SyncGroup
response would have been received.) -/
theorem C2_join_sync_roundtrip (p : GroupPolicy) (s : CoordState)
    (jr : JoinGroupResponse) (sr : SyncGroupResponse)
    (h1 : s.rejoin_needed = true) (h2 : jr.error_code = 0)
    (h3 : sr.error_code = 0)
    (h4 : jr.leader_id = jr.member_id →
       ∃ ga, p.perform_assignment jr.leader_id jr.group_protocol jr.members
         = .ok ga) :
    (ensure_active_group p s [.rjoin jr sr]).1.member_id = jr.member_id ∧
    (ensure_active_group p s [.rjoin jr sr]).1.generation
      = jr.generation_id ∧
    (ensure_active_group p s [.rjoin jr sr]).1.protocol
      = some jr.group_protocol ∧
    (ensure_active_group p s [.rjoin jr sr]).1.rejoin_needed = false ∧
    (ensure_active_group p s [.rjoin jr sr]).2.2 = none ∧
    Event.joinComplete jr.generation_id jr.member_id
        (some jr.group_protocol) sr.member_assignment ∈
      (ensure_active_group p s [.rjoin jr sr]).2.1 := by
  have key : ∀ t : CoordState, t.rejoin_needed = true →
      loopAG p t [Round.rjoin jr sr] =
        ({ t with member_id := jr.member_id,
                  generation := jr.generation_id,
                  rejoin_needed := false,
                  protocol := some jr.group_protocol,
                  needs_join_prepare := true },
         [.joinRequest t.member_id,
          .joinComplete jr.generation_id jr.member_id
            (some jr.group_protocol) sr.member_assignment,
          .heartbeatReset], none) := by
    intro t ht
    rw [loopAG_cons_ok p t
      { t with member_id := jr.member_id, generation := jr.generation_id,
               rejoin_needed := false, protocol := some jr.group_protocol }
      (.rjoin jr sr) [] sr.member_assignment ht
      (runRound_success p t jr sr h2 h3 h4)]
    rfl
  by_cases hp : s.needs_join_prepare = true
  · have hk := key { s with needs_join_prepare := false } h1
    rw [h1] at hk
    simp [ensure_active_group, h1, hp, hk]
  · rw [Bool.not_eq_true] at hp
    have hk := key s h1
    simp [ensure_active_group, h1, hp, hk]

/-- C2 (witness): a clean join as follower — JoinGroup `NoError` with
generation 1, member `m1`, leader `m2`, protocol `range`, then SyncGroup
`NoError` with assignment bytes `[10, 11]`, from the fresh initial
state. -/
theorem C2_join_sync_roundtrip_witness :
    (ensure_active_group samplePolicy initState
      [.rjoin { error_code := 0, generation_id := 1, member_id := "m1",
                leader_id := "m2", group_protocol := "range",
                members := [] }
              { error_code := 0, member_assignment := [10, 11] }]).1.member_id
      = "m1" ∧
    (ensure_active_group samplePolicy initState
      [.rjoin { error_code := 0, generation_id := 1, member_id := "m1",
                leader_id := "m2", group_protocol := "range",
                members := [] }
              { error_code := 0, member_assignment := [10, 11] }]).1.generation
      = 1 ∧
    Event.joinComplete 1 "m1" (some "range") [10, 11] ∈
      (ensure_active_group samplePolicy initState
        [.rjoin { error_code := 0, generation_id := 1, member_id := "m1",
                  leader_id := "m2", group_protocol := "range",
                  members := [] }
                { error_code := 0, member_assignment := [10, 11] }]).2.1 := by
  have h := C2_join_sync_roundtrip samplePolicy initState
    { error_code := 0, generation_id := 1, member_id := "m1",
      leader_id := "m2", group_protocol := "range", members := [] }
    { error_code := 0, member_assignment := [10, 11] }
    (by decide) (by decide) (by decide)
    (fun hl => absurd hl (by decide))
  exact ⟨h.1, h.2.1, h.2.2.2.2.2⟩

/-!
### C5 — JoinGroup UnknownMemberId: immediate retry with reset member id
-/

/-- C5: a JoinGroup response with error code 25 (`UnknownMemberId`)
resets `member_id` to the empty sentinel and fails the future with an
instance built from the old member id; the `ensure_active_group` loop
retries immediately — no `sleepBackoff` event between the failed
JoinGroup and the next one (likewise for codes 27 `RebalanceInProgress`
and 22 `IllegalGeneration`) — and the next JoinGroup request is sent
with the current (for 25: empty) member id. -/
theorem C5_join_unknown_member_immediate_retry
    (p : GroupPolicy) (s : CoordState) (jr : JoinGroupResponse)
    (sr : SyncGroupResponse) (r2 : Round) (rest : List Round)
    (h1 : s.rejoin_needed = true)
    (h2 : jr.error_code = 25 ∨ jr.error_code = 27 ∨ jr.error_code = 22) :
    (jr.error_code = 25 →
       (runRound p s (.rjoin jr sr)).1 =
         { s with member_id := UNKNOWN_MEMBER_ID } ∧
       (runRound p s (.rjoin jr sr)).2 =
         .error (.inst .UnknownMemberId (.str s.member_id))) ∧
    (runRound p s (.rjoin jr sr)).1.rejoin_needed = true ∧
    loopAG p s (.rjoin jr sr :: r2 :: rest) =
      ((loopAG p (runRound p s (.rjoin jr sr)).1 (r2 :: rest)).1,
       .joinRequest s.member_id ::
         (loopAG p (runRound p s (.rjoin jr sr)).1 (r2 :: rest)).2.1,
       (loopAG p (runRound p s (.rjoin jr sr)).1 (r2 :: rest)).2.2) ∧
    (loopAG p (runRound p s (.rjoin jr sr)).1 (r2 :: rest)).2.1.head? =
      some (.joinRequest (runRound p s (.rjoin jr sr)).1.member_id) := by
  rcases h2 with hc | hc | hc
  · have hrr : runRound p s (.rjoin jr sr) =
        ({ s with member_id := UNKNOWN_MEMBER_ID },
         .error (.inst .UnknownMemberId (.str s.member_id))) := by
      have hk : for_code jr.error_code = .UnknownMemberId := by rw [hc]; rfl
      simp [runRound, handle_join_group_response, hk]
    refine ⟨fun _ => ⟨by rw [hrr], by rw [hrr]⟩, by rw [hrr]; exact h1,
      ?_, ?_⟩
    · rw [hrr]
      exact loopAG_cons_mem p s { s with member_id := UNKNOWN_MEMBER_ID }
        (.rjoin jr sr) (r2 :: rest)
        (.inst .UnknownMemberId (.str s.member_id)) h1 hrr rfl
    · rw [hrr]
      exact loopAG_cons_head p { s with member_id := UNKNOWN_MEMBER_ID }
        r2 rest h1
  · have hrr : runRound p s (.rjoin jr sr) =
        (s, .error (.inst .RebalanceInProgress .noArg)) := by
      have hk : for_code jr.error_code = .RebalanceInProgress := by
        rw [hc]; rfl
      simp [runRound, handle_join_group_response, hk]
    refine ⟨fun h25 => absurd (h25.symm.trans hc) (by decide),
      by rw [hrr]; exact h1, ?_, ?_⟩
    · rw [hrr]
      exact loopAG_cons_mem p s s (.rjoin jr sr) (r2 :: rest)
        (.inst .RebalanceInProgress .noArg) h1 hrr rfl
    · rw [hrr]
      exact loopAG_cons_head p s r2 rest h1
  · have hrr : runRound p s (.rjoin jr sr) =
        (s, .error (.inst .IllegalGeneration .noArg)) := by
      have hk : for_code jr.error_code = .IllegalGeneration := by
        rw [hc]; rfl
      simp [runRound, handle_join_group_response, hk]
    refine ⟨fun h25 => absurd (h25.symm.trans hc) (by decide),
      by rw [hrr]; exact h1, ?_, ?_⟩
    · rw [hrr]
      exact loopAG_cons_mem p s s (.rjoin jr sr) (r2 :: rest)
        (.inst .IllegalGeneration .noArg) h1 hrr rfl
    · rw [hrr]
      exact loopAG_cons_head p s r2 rest h1

/-- C5 (witness): an `UnknownMemberId` join failure from a state holding
the stale member id `stale`, followed by a clean join round. -/
theorem C5_join_unknown_member_immediate_retry_witness :
    (runRound samplePolicy
       { initState with member_id := "stale" }
       (.rjoin { error_code := 25, generation_id := 0, member_id := "",
                 leader_id := "", group_protocol := "", members := [] }
               { error_code := 0, member_assignment := [] })).1 =
      { ({ initState with member_id := "stale" } : CoordState) with
          member_id := UNKNOWN_MEMBER_ID } ∧
    (loopAG samplePolicy
       (runRound samplePolicy { initState with member_id := "stale" }
         (.rjoin { error_code := 25, generation_id := 0, member_id := "",
                   leader_id := "", group_protocol := "", members := [] }
                 { error_code := 0, member_assignment := [] })).1
       ([.rjoin { error_code := 0, generation_id := 1, member_id := "m1",
                  leader_id := "m2", group_protocol := "range",
                  members := [] }
               { error_code := 0, member_assignment := [] }])).2.1.head? =
      some (.joinRequest
        (runRound samplePolicy { initState with member_id := "stale" }
          (.rjoin { error_code := 25, generation_id := 0, member_id := "",
                    leader_id := "", group_protocol := "", members := [] }
                  { error_code := 0, member_assignment := [] })).1.member_id) := by
  have h := C5_join_unknown_member_immediate_retry samplePolicy
    { initState with member_id := "stale" }
    { error_code := 25, generation_id := 0, member_id := "",
      leader_id := "", group_protocol := "", members := [] }
    { error_code := 0, member_assignment := [] }
    (.rjoin { error_code := 0, generation_id := 1, member_id := "m1",
              leader_id := "m2", group_protocol := "range", members := [] }
            { error_code := 0, member_assignment := [] })
    [] (by decide) (Or.inl (by decide))
  exact ⟨(h.1 (by decide)).1, h.2.2.2⟩

/-!
### C6 — prepare-before-join
-/

/-- C6 (counterexample): a rejoin chain that begins after a fatal join
failure runs `_on_join_prepare` zero times, not exactly once. First
chain: from the fresh state, a JoinGroup reply with code 24
(`InvalidGroupId`) is fatal — the chain ends with the raised error and
leaves `needs_join_prepare = false`. Second chain: begins with
`need_rejoin()` true, performs a JoinGroup (a `joinRequest` event is in
its trace) but contains no `prepare` event. -/
theorem C6_prepare_before_join_counterexample :
    (ensure_active_group samplePolicy initState
      [.rjoin { error_code := 24, generation_id := 0, member_id := "",
                leader_id := "", group_protocol := "", members := [] }
              { error_code := 0, member_assignment := [] }]).2.2 =
      some (.inst .InvalidGroupId .resp) ∧
    countPrepare (ensure_active_group samplePolicy initState
      [.rjoin { error_code := 24, generation_id := 0, member_id := "",
                leader_id := "", group_protocol := "", members := [] }
              { error_code := 0, member_assignment := [] }]).2.1 = 1 ∧
    (ensure_active_group samplePolicy initState
      [.rjoin { error_code := 24, generation_id := 0, member_id := "",
                leader_id := "", group_protocol := "", members := [] }
              { error_code := 0, member_assignment := [] }]).1.rejoin_needed
      = true ∧
    countPrepare (ensure_active_group samplePolicy
      (ensure_active_group samplePolicy initState
        [.rjoin { error_code := 24, generation_id := 0, member_id := "",
                  leader_id := "", group_protocol := "", members := [] }
                { error_code := 0, member_assignment := [] }]).1
      [.rjoin { error_code := 0, generation_id := 1, member_id := "m1",
                leader_id := "m2", group_protocol := "range",
                members := [] }
              { error_code := 0, member_assignment := [] }]).2.1 = 0 ∧
    Event.joinRequest "" ∈
      (ensure_active_group samplePolicy
        (ensure_active_group samplePolicy initState
          [.rjoin { error_code := 24, generation_id := 0, member_id := "",
                    leader_id := "", group_protocol := "", members := [] }
                  { error_code := 0, member_assignment := [] }]).1
        [.rjoin { error_code := 0, generation_id := 1, member_id := "m1",
                  leader_id := "m2", group_protocol := "range",
                  members := [] }
                { error_code := 0, member_assignment := [] }]).2.1 := by
  refine ⟨by decide, by decide, by decide, by decide, by decide⟩

/-- C6 (amended): within one `ensure_active_group` activation that begins
with a rejoin pending, `_on_join_prepare` runs at most once; it runs
exactly once — as the very first event, hence before the first JoinGroup
— precisely when the chain begins with `needs_join_prepare` true (which
holds unless a previous chain ended in a fatal raise after its prepare
already ran). -/
theorem C6_prepare_before_join (p : GroupPolicy) (s : CoordState)
    (script : List Round) (h : s.rejoin_needed = true) :
    countPrepare (ensure_active_group p s script).2.1 ≤ 1 ∧
    (s.needs_join_prepare = true →
       (ensure_active_group p s script).2.1 =
         Event.prepare s.generation s.member_id ::
           (loopAG p { s with needs_join_prepare := false } script).2.1 ∧
       countPrepare (ensure_active_group p s script).2.1 = 1) ∧
    (s.needs_join_prepare = false →
       countPrepare (ensure_active_group p s script).2.1 = 0) := by
  by_cases hp : s.needs_join_prepare = true
  · have he : (ensure_active_group p s script).2.1 =
        Event.prepare s.generation s.member_id ::
          (loopAG p { s with needs_join_prepare := false } script).2.1 := by
      rcases hl : loopAG p { s with needs_join_prepare := false } script
        with ⟨s2, evs, raised⟩
      rw [h] at hl
      simp [ensure_active_group, h, hp, hl]
    have hc : countPrepare (ensure_active_group p s script).2.1 = 1 := by
      rw [he]
      simp [countPrepare_loopAG]
    refine ⟨le_of_eq hc, fun _ => ⟨he, hc⟩, fun hf => ?_⟩
    rw [hp] at hf
    cases hf
  · rw [Bool.not_eq_true] at hp
    have hc : countPrepare (ensure_active_group p s script).2.1 = 0 := by
      rcases hl : loopAG p s script with ⟨s2, evs, raised⟩
      have := countPrepare_loopAG script p s
      rw [hl] at this
      simp [ensure_active_group, h, hp, hl, this]
    refine ⟨by omega, fun ht => ?_, fun _ => hc⟩
    rw [hp] at ht
    cases ht

/-- C6 (witness): the amended theorem applied to the fresh state (where
`needs_join_prepare` holds) with a clean one-round script. -/
theorem C6_prepare_before_join_witness :
    (ensure_active_group samplePolicy initState
      [.rjoin { error_code := 0, generation_id := 1, member_id := "m1",
                leader_id := "m2", group_protocol := "range",
                members := [] }
              { error_code := 0, member_assignment := [] }]).2.1 =
      Event.prepare initState.generation initState.member_id ::
        (loopAG samplePolicy { initState with needs_join_prepare := false }
          [.rjoin { error_code := 0, generation_id := 1, member_id := "m1",
                    leader_id := "m2", group_protocol := "range",
                    members := [] }
                  { error_code := 0, member_assignment := [] }]).2.1 := by
  have h := C6_prepare_before_join samplePolicy initState
    [.rjoin { error_code := 0, generation_id := 1, member_id := "m1",
              leader_id := "m2", group_protocol := "range", members := [] }
            { error_code := 0, member_assignment := [] }]
    (by decide)
  exact (h.2.1 (by decide)).1

end KafkaCoord
